import Mathlib

/-!
Verification of the request-validation pipeline of the
express-payload-parsing repository (src/index.ts, canonical variant with
the three-stage route POST /bar/:id).

The middleware layer, the stage order, the route handler and the guard
predicate isEmail are translated directly from src/index.ts.  The
descriptor engine (Record / Literal / Union / Guard and their failure
messages) lives in the external runtypes library, which is not part of
src/; those definitions are modelled from the specification, anchored on
the concrete request/response scenarios the spec and the repository
README record.
-/

/-- JSON-like values: the data carried by a request body, query map or
path-parameter map after the HTTP layer has parsed the wire format. -/
inductive Value where
  | str (s : String)
  | num (n : Int)
  | bool (b : Bool)
  | null
  | arr (elems : List Value)
  | obj (fields : List (String × Value))

/-- Primitive values, the only values a Literal descriptor can hold. -/
inductive Prim where
  | str (s : String)
  | num (n : Int)
  | bool (b : Bool)
  | null
deriving DecidableEq

/-- A primitive viewed as a Value. -/
def Prim.toValue : Prim → Value
  | .str s => .str s
  | .num n => .num n
  | .bool b => .bool b
  | .null => .null

/-- Modelled from the spec: a Guard predicate is an opaque value-to-boolean
function.  The spec states that a fault thrown inside the predicate is
coerced to a failed check, so a predicate evaluation is modelled as an
Option Bool in which none stands for a thrown fault. -/
def GuardPred : Type := Value → Option Bool

/-- Modelled from the spec: the closed set of descriptor variants of the
validation engine (the runtypes library, which is not part of src/):
Record, Literal, Union and Guard. -/
inductive Descriptor where
  | record (fields : List (String × Descriptor))
  | literal (v : Prim)
  | union (alts : List Descriptor)
  | guard (p : GuardPred)

/-- Modelled from the spec: the outcome of checking a value against a
descriptor, either the conforming value or a field-to-reason mapping. -/
inductive ValidationOutcome where
  | valid (v : Value)
  | invalid (details : List (String × String))

/-- The JavaScript typeof name of a value, used in failure messages. -/
def typeOfValue : Value → String
  | .str _ => "string"
  | .num _ => "number"
  | .bool _ => "boolean"
  | .null => "object"
  | .arr _ => "object"
  | .obj _ => "object"

/-- Rendering of a primitive inside a literal-mismatch message. -/
def Prim.render : Prim → String
  | .str s => s
  | .num n => toString n
  | .bool b => toString b
  | .null => "null"

/-- Summary (static shape description) of a primitive literal, quoted for
strings, as it appears in expected-but-was-missing messages. -/
def Prim.summary : Prim → String
  | .str s => "\"" ++ s ++ "\""
  | .num n => toString n
  | .bool b => toString b
  | .null => "null"

mutual
/-- Modelled from the spec: the static summary of a descriptor, used in
failure messages such as scenario 3 (Expected "bar", but was missing),
scenario 5 (Expected unknown, but was missing) and scenario 6
(Expected "1" | "2", but was string). -/
def descSummary : Descriptor → String
  | .record fields => "\x7b " ++ fieldsSummary fields ++ "\x7d"
  | .literal v => v.summary
  | .union alts => altsSummary alts
  | .guard _ => "unknown"
/-- Summary of the declared fields of a record descriptor. -/
def fieldsSummary : List (String × Descriptor) → String
  | [] => ""
  | (f, d) :: rest => f ++ ": " ++ descSummary d ++ "; " ++ fieldsSummary rest
/-- Summary of union alternatives, joined by a vertical bar. -/
def altsSummary : List Descriptor → String
  | [] => ""
  | [d] => descSummary d
  | d :: rest => descSummary d ++ " | " ++ altsSummary rest
end

/-- First-match lookup of a field name in a JSON object. -/
def lookupField (name : String) : List (String × Value) → Option Value
  | [] => none
  | (k, v) :: rest => if k = name then some v else lookupField name rest

/-- Rendering of an observed value inside a literal-mismatch message. -/
def valueRender : Value → String
  | .str s => s
  | .num n => toString n
  | .bool b => toString b
  | .null => "null"
  | .arr _ => "array"
  | .obj _ => "object"

/-- Strict equality of a primitive literal with an observed value. -/
def primMatches : Prim → Value → Bool
  | .str s, .str t => s = t
  | .num n, .num m => n = m
  | .bool a, .bool b => a = b
  | .null, .null => true
  | _, _ => false

/-- Modelled from the spec: a record failure is attributed to the failing
field name, except that a failure already carrying an inner field name
keeps it, so nested record failures surface the innermost leaf field name
rather than a dotted path. -/
def attributeFailure (f : String) : List (String × String) → String × String
  | ("", r) :: _ => (f, r)
  | (k, r) :: _ => (k, r)
  | [] => (f, "")

mutual
/-- Modelled from the spec: the validation engine of the runtypes library
(not part of src/).  Record checks declared fields in declaration order
and stops at the first failing field; Literal compares primitive equality;
Union tries alternatives in listed order, the first success winning, and
on total failure reports its own summary together with the observed typeof
name, matching spec scenario 6 and the repository README transcript;
Guard succeeds exactly when the predicate yields true, a thrown fault
counting as false.  On success a Record yields the value restricted to the
declared fields. -/
def validate : Descriptor → Value → ValidationOutcome
  | .record fields, .obj m =>
    match validateFields fields m with
    | .inl details => .invalid details
    | .inr m2 => .valid (.obj m2)
  | .record fields, v =>
    .invalid [("", "Expected " ++ descSummary (.record fields) ++ ", but was " ++ typeOfValue v)]
  | .literal lv, v =>
    if primMatches lv v then .valid v
    else if typeOfValue v = typeOfValue lv.toValue then
      .invalid [("", "Expected literal `" ++ lv.render ++ "`, but was `" ++ valueRender v ++ "`")]
    else
      .invalid [("", "Expected " ++ lv.summary ++ ", but was " ++ typeOfValue v)]
  | .union alts, v =>
    match firstMatch alts v with
    | some w => .valid w
    | none => .invalid [("", "Expected " ++ altsSummary alts ++ ", but was " ++ typeOfValue v)]
  | .guard p, v =>
    match p v with
    | some true => .valid v
    | _ => .invalid [("", "Failed constraint check for unknown")]
/-- Modelled from the spec: declared record fields are checked in
declaration order; a missing key fails immediately with the
expected-but-was-missing message; a failing field stops the scan with only
that reason; on full success the declared fields are collected in order,
dropping undeclared input fields. -/
def validateFields : List (String × Descriptor) → List (String × Value) →
    Sum (List (String × String)) (List (String × Value))
  | [], _ => .inr []
  | (f, d) :: rest, m =>
    match lookupField f m with
    | none => .inl [(f, "Expected " ++ descSummary d ++ ", but was missing")]
    | some x =>
      match validate d x with
      | .invalid details => .inl [attributeFailure f details]
      | .valid x2 =>
        match validateFields rest m with
        | .inl details => .inl details
        | .inr m2 => .inr ((f, x2) :: m2)
/-- Modelled from the spec: union alternatives are attempted in listed
order and the first success wins. -/
def firstMatch : List Descriptor → Value → Option Value
  | [], _ => none
  | d :: rest, v =>
    match validate d v with
    | .valid w => some w
    | .invalid _ => firstMatch rest v
end

/-- Suffix test on strings, the shallow embedding of the JavaScript
String.prototype.endsWith call in src/index.ts. -/
def strEndsWith (s suffix : String) : Bool :=
  suffix.data.isSuffixOf s.data

/-- From src/index.ts: the guard predicate accepting exactly the strings
that end with the Gmail domain.  It never throws, hence always some. -/
def isEmail : GuardPred := fun v =>
  some (match v with
    | .str s => strEndsWith s "@gmail.com"
    | _ => false)

/-- From src/index.ts: RT.Record with the single field email guarded by
isEmail. -/
def PayloadRuntype : Descriptor := .record [("email", .guard isEmail)]

/-- From src/index.ts: RT.Record requiring the query parameter foo to be
the literal string bar. -/
def QueryParamRuntype : Descriptor := .record [("foo", .literal (.str "bar"))]

/-- From src/index.ts: RT.Record requiring the path parameter id to be the
literal string 1 or the literal string 2. -/
def PathParamRuntype : Descriptor := .record [("id", .union [.literal (.str "1"), .literal (.str "2")])]

/-- The three raw request slices, as express hands them to the middleware
chain: req.body, req.query and req.params. -/
structure RequestContext where
  body : Value
  query : Value
  params : Value

/-- The slice a stage is bound to. -/
inductive Slice where
  | body
  | query
  | params
deriving DecidableEq

/-- Reading a slice from the request context. -/
def getSlice : Slice → RequestContext → Value
  | .body, ctx => ctx.body
  | .query, ctx => ctx.query
  | .params, ctx => ctx.params

/-- Replacing a slice in the request context. -/
def setSlice : Slice → Value → RequestContext → RequestContext
  | .body, v, ctx => { ctx with body := v }
  | .query, v, ctx => { ctx with query := v }
  | .params, v, ctx => { ctx with params := v }

/-- A pipeline stage: one slice selector bound to one descriptor. -/
structure Stage where
  slice : Slice
  runtype : Descriptor

/-- From src/index.ts: bodyTypeParserMiddleware binds a runtype to the
body slice. -/
def bodyTypeParserMiddleware (bodyParserRuntype : Descriptor) : Stage :=
  { slice := .body, runtype := bodyParserRuntype }

/-- From src/index.ts: queryTypeParserMiddleware binds a runtype to the
query slice. -/
def queryTypeParserMiddleware (queryParserRuntype : Descriptor) : Stage :=
  { slice := .query, runtype := queryParserRuntype }

/-- From src/index.ts: pathParamsParserMiddleware binds a runtype to the
path-params slice. -/
def pathParamsParserMiddleware (pathParamsParserRuntype : Descriptor) : Stage :=
  { slice := .params, runtype := pathParamsParserRuntype }

/-- The signal a middleware sends: call next, or stop with a failure. -/
inductive StageSignal where
  | next
  | halt (details : List (String × String))

/-- One middleware invocation, translated from src/index.ts.  The source
runs runtype.check on the slice inside a try block: on success it calls
next() and the checked value is discarded, so the request context is
passed on exactly as it came in; on a validation throw it responds 400
and does not call next().  In both branches the context is unchanged. -/
def runStage (s : Stage) (ctx : RequestContext) : StageSignal × RequestContext :=
  match validate s.runtype (getSlice s.slice ctx) with
  | .valid _checked => (.next, ctx)
  | .invalid d => (.halt d, ctx)

/-- Modelled from the spec: stage dispatch as section 4.2 of the spec
words it, in which the validated shape-restricted value is written back
into the context under the same slice before next runs.  Kept for
comparison with runStage, the translation of the actual middleware. -/
def runStageSpec (s : Stage) (ctx : RequestContext) : StageSignal × RequestContext :=
  match validate s.runtype (getSlice s.slice ctx) with
  | .valid checked => (.next, setSlice s.slice checked ctx)
  | .invalid d => (.halt d, ctx)

/-- Outcome of running the middleware chain of a route. -/
inductive PipelineOutcome where
  | allPassed (ctx : RequestContext)
  | rejected (details : List (String × String)) (stageIndex : Nat)

/-- Sequential dispatch of the stages attached to a route, starting at
stage index i: express runs each middleware only when the previous one
called next(), so the chain stops at the first halt. -/
def dispatchAux (i : Nat) : List Stage → RequestContext → PipelineOutcome
  | [], ctx => .allPassed ctx
  | s :: rest, ctx =>
    match runStage s ctx with
    | (.next, ctx2) => dispatchAux (i + 1) rest ctx2
    | (.halt d, _) => .rejected d i

/-- Dispatch of a full middleware chain from its first stage. -/
def dispatch (stages : List Stage) (ctx : RequestContext) : PipelineOutcome :=
  dispatchAux 0 stages ctx

/-- From src/index.ts: the middleware chain attached to POST /bar/:id, in
attachment order body, query, path params. -/
def barStages : List Stage :=
  [bodyTypeParserMiddleware PayloadRuntype,
   queryTypeParserMiddleware QueryParamRuntype,
   pathParamsParserMiddleware PathParamRuntype]

/-- A wire-level response: status code and JSON body. -/
structure Response where
  status : Nat
  body : Value

/-- From src/index.ts: the terminal handler of POST /bar/:id reads
req.body, req.query and req.params as they stand after the middleware
chain and echoes them with res.json. -/
def barHandler (ctx : RequestContext) : Response :=
  { status := 200,
    body := .obj [("payload", ctx.body), ("query", ctx.query), ("params", ctx.params)] }

/-- The 400 error body.  The error wrapper object comes from src/index.ts
(res.status(400).send with the caught error under the key error); the
serialized shape of the caught ValidationError itself (name, code,
details) is modelled from the spec, since the error class lives in the
runtypes library outside src/. -/
def validationErrorBody (details : List (String × String)) : Value :=
  .obj [("error", .obj
    [("name", .str "ValidationError"),
     ("code", .str "CONTENT_INCORRECT"),
     ("details", .obj (details.map (fun kr => (kr.1, Value.str kr.2))))])]

/-- End-to-end processing of one POST /bar/:id request: run the chain; on
full success the terminal handler answers, otherwise the failing
middleware has already answered 400 with the error envelope. -/
def processBarRequest (body query params : Value) : Response :=
  match dispatch barStages { body := body, query := query, params := params } with
  | .allPassed ctx => barHandler ctx
  | .rejected d _ => { status := 400, body := validationErrorBody d }

/-- Validating the same descriptor-value pair twice in a row. -/
def validateTwice (d : Descriptor) (v : Value) : ValidationOutcome × ValidationOutcome :=
  (validate d v, validate d v)

/-- A failing record scan reports exactly one field. -/
theorem validateFields_inl_length (fields : List (String × Descriptor)) :
    ∀ m l, validateFields fields m = .inl l → l.length = 1 := by
  induction fields with
  | nil => intro m l h; simp [validateFields] at h
  | cons fd rest ih =>
    intro m l h
    obtain ⟨f, d⟩ := fd
    rw [validateFields] at h
    cases hl : lookupField f m with
    | none =>
      simp only [hl] at h
      cases h
      rfl
    | some x =>
      simp only [hl] at h
      cases hv : validate d x with
      | invalid det =>
        simp only [hv] at h
        cases h
        rfl
      | valid x2 =>
        simp only [hv] at h
        cases hr : validateFields rest m with
        | inl det =>
          simp only [hr] at h
          cases h
          exact ih m _ hr
        | inr m2 => simp only [hr] at h; cases h

/-- Every validation failure carries exactly one field-to-reason entry. -/
theorem validate_invalid_length (d : Descriptor) (v : Value) :
    ∀ l, validate d v = .invalid l → l.length = 1 := by
  intro l h
  cases d with
  | record fields =>
    cases v with
    | obj m =>
      rw [validate] at h
      cases hr : validateFields fields m with
      | inl det =>
        simp only [hr] at h
        cases h
        exact validateFields_inl_length fields m l hr
      | inr m2 => simp only [hr] at h; cases h
    | str s => rw [validate] at h <;> first | (cases h; rfl) | simp
    | num n => rw [validate] at h <;> first | (cases h; rfl) | simp
    | bool b => rw [validate] at h <;> first | (cases h; rfl) | simp
    | null => rw [validate] at h <;> first | (cases h; rfl) | simp
    | arr xs => rw [validate] at h <;> first | (cases h; rfl) | simp
  | literal lv =>
    rw [validate] at h
    split at h
    · cases h
    · split at h <;> (cases h; rfl)
  | union alts =>
    rw [validate] at h
    cases hm : firstMatch alts v with
    | some w => simp only [hm] at h; cases h
    | none => simp only [hm] at h; cases h; rfl
  | guard p =>
    rw [validate] at h
    cases hp : p v with
    | none => simp only [hp] at h; cases h; rfl
    | some b =>
      cases b with
      | true => simp only [hp] at h; cases h
      | false => simp only [hp] at h; cases h; rfl

/-- A rejected dispatch carries the details of one validation failure, so
its details list has exactly one entry. -/
theorem dispatchAux_rejected_length (stages : List Stage) :
    ∀ i ctx d j, dispatchAux i stages ctx = .rejected d j → d.length = 1 := by
  induction stages with
  | nil => intro i ctx d j h; simp [dispatchAux] at h
  | cons s rest ih =>
    intro i ctx d j h
    rw [dispatchAux] at h
    cases hv : validate s.runtype (getSlice s.slice ctx) with
    | valid w =>
      simp only [runStage, hv] at h
      exact ih (i + 1) ctx d j h
    | invalid det =>
      simp only [runStage, hv] at h
      cases h
      exact validate_invalid_length _ _ _ hv

/-- Claim C5: a Record descriptor checks its declared fields in
declaration order; a missing key fails immediately with the
expected-but-was-missing message naming the sub-descriptor summary; a
failing field stops the scan and is the only reported field; later fields
are reached only after all earlier fields passed; and every failure
carries exactly one field-to-reason entry. -/
theorem record_first_failure_policy :
    (∀ f d rest m, lookupField f m = none →
        validate (.record ((f, d) :: rest)) (.obj m) =
          .invalid [(f, "Expected " ++ descSummary d ++ ", but was missing")]) ∧
    (∀ f d rest m x det, lookupField f m = some x → validate d x = .invalid det →
        validate (.record ((f, d) :: rest)) (.obj m) = .invalid [attributeFailure f det]) ∧
    (∀ f d rest m x w, lookupField f m = some x → validate d x = .valid w →
        validate (.record ((f, d) :: rest)) (.obj m) =
          (match validateFields rest m with
            | .inl det => .invalid det
            | .inr m2 => .valid (.obj ((f, w) :: m2)))) ∧
    (∀ d v l, validate d v = .invalid l → l.length = 1) := by
  refine ⟨?_, ?_, ?_, validate_invalid_length⟩
  · intro f d rest m h
    rw [validate, validateFields]
    simp [h]
  · intro f d rest m x det h1 h2
    rw [validate, validateFields]
    simp [h1, h2]
  · intro f d rest m x w h1 h2
    rw [validate, validateFields]
    simp only [h1, h2]
    cases hr : validateFields rest m <;> simp [hr]

/-- Claim C5 witness: the empty body against the payload record yields the
missing-email failure of spec scenario 5. -/
theorem record_first_failure_policy_witness :
    validate PayloadRuntype (Value.obj []) =
      .invalid [("email", "Expected unknown, but was missing")] := by
  have h := record_first_failure_policy.1 "email" (.guard isEmail) [] [] rfl
  simpa [PayloadRuntype, descSummary] using h

/-- Claim C6 (amended): union alternatives are attempted in listed order
and the first success wins; when no alternative matches, the failure
reason is the message built from the summaries of all alternatives and
the observed typeof name, as in spec scenario 6. -/
theorem union_first_match_policy :
    (∀ d rest v w, validate d v = .valid w → firstMatch (d :: rest) v = some w) ∧
    (∀ d rest v det, validate d v = .invalid det → firstMatch (d :: rest) v = firstMatch rest v) ∧
    (∀ alts v w, firstMatch alts v = some w → validate (.union alts) v = .valid w) ∧
    (∀ alts v, firstMatch alts v = none →
        validate (.union alts) v =
          .invalid [("", "Expected " ++ altsSummary alts ++ ", but was " ++ typeOfValue v)]) := by
  refine ⟨?_, ?_, ?_, ?_⟩
  · intro d rest v w h
    rw [firstMatch]
    simp [h]
  · intro d rest v det h
    rw [firstMatch]
    simp [h]
  · intro alts v w h
    rw [validate]
    simp [h]
  · intro alts v h
    rw [validate]
    simp [h]

/-- Claim C6 witness: on input 1 the first alternative of the id union
matches, so the union succeeds through it. -/
theorem union_first_match_policy_witness :
    firstMatch [Descriptor.literal (.str "1"), Descriptor.literal (.str "2")] (Value.str "1") =
      some (Value.str "1") :=
  union_first_match_policy.1 _ _ _ _ (by simp [validate, primMatches])

/-- Claim C6 counterexample: on the path parameter value random the
reported union failure reason is the summary message of spec scenario 6,
which differs from the failure message the first alternative produces on
its own, refuting the claim that the first alternative message is
propagated. -/
theorem union_failure_message_counterexample :
    validate (.union [.literal (.str "1"), .literal (.str "2")]) (.str "random") =
      .invalid [("", "Expected \"1\" | \"2\", but was string")] ∧
    validate (.literal (.str "1")) (.str "random") =
      .invalid [("", "Expected literal `1`, but was `random`")] ∧
    ("Expected \"1\" | \"2\", but was string" : String) ≠
      "Expected literal `1`, but was `random`" := by
  refine ⟨?_, ?_, by decide⟩
  · simp [validate, firstMatch, primMatches, altsSummary, descSummary, Prim.summary,
      typeOfValue, Prim.toValue, Prim.render, valueRender]
  · simp [validate, primMatches, typeOfValue, Prim.toValue, Prim.render, valueRender]

/-- Claim C7: a guard succeeds exactly when its predicate yields true; a
fault thrown inside the predicate, modelled as none, produces the very
same outcome as a predicate that returns false; and every guard failure
reports the fixed constraint-check message naming the target type as
unknown. -/
theorem guard_fault_coercion :
    ∀ (p : GuardPred) (v : Value),
      ((∃ w, validate (.guard p) v = .valid w) ↔ p v = some true) ∧
      (validate (.guard p) v = .valid v ∨
        validate (.guard p) v = .invalid [("", "Failed constraint check for unknown")]) ∧
      (p v = none → validate (.guard p) v = validate (.guard (fun _ => some false)) v) := by
  intro p v
  cases hp : p v with
  | none =>
    exact ⟨by simp [validate, hp], Or.inr (by simp [validate, hp]), fun _ => by simp [validate, hp]⟩
  | some b =>
    cases b with
    | true =>
      exact ⟨by simp [validate, hp], Or.inl (by simp [validate, hp]), fun hn => by simp [hp] at hn⟩
    | false =>
      exact ⟨by simp [validate, hp], Or.inr (by simp [validate, hp]), fun hn => by simp [hp] at hn⟩

/-- Claim C7 witness: a predicate that throws is indistinguishable from a
predicate that returns false. -/
theorem guard_fault_coercion_witness :
    validate (.guard (fun _ => none)) (Value.str "x") =
      validate (.guard (fun _ => some false)) (Value.str "x") :=
  (guard_fault_coercion (fun _ => none) (Value.str "x")).2.2 rfl

/-- Claim C8: validation is a pure function of the descriptor-value pair;
validating the same pair twice yields identical outcomes.  The embedding
is stateless, mirroring the source design in which descriptors are
constructed once and never mutated, so purity holds definitionally. -/
theorem validation_is_pure :
    ∀ (d : Descriptor) (v : Value),
      (validateTwice d v).1 = (validateTwice d v).2 ∧
      validateTwice d v = (validate d v, validate d v) :=
  fun _ _ => ⟨rfl, rfl⟩

/-- Claim C1 (amended): when all three slices satisfy their descriptors
the pipeline returns AllPassed and the terminal handler echoes the raw
input slices unchanged; the validated shape-restricted values are not
substituted, because each middleware discards the checked value. -/
theorem all_valid_identity_passthrough :
    ∀ b q p vb vq vp,
      validate PayloadRuntype b = .valid vb →
      validate QueryParamRuntype q = .valid vq →
      validate PathParamRuntype p = .valid vp →
      dispatch barStages { body := b, query := q, params := p } =
        .allPassed { body := b, query := q, params := p } ∧
      processBarRequest b q p =
        { status := 200, body := Value.obj [("payload", b), ("query", q), ("params", p)] } := by
  intro b q p vb vq vp h1 h2 h3
  have hd : dispatch barStages { body := b, query := q, params := p } =
      .allPassed { body := b, query := q, params := p } := by
    simp [dispatch, dispatchAux, runStage, barStages, bodyTypeParserMiddleware,
      queryTypeParserMiddleware, pathParamsParserMiddleware, getSlice, h1, h2, h3]
  refine ⟨hd, ?_⟩
  rw [processBarRequest, hd]
  rfl

/-- Claim C1 witness: a fully valid request with path id 2 passes all
stages and the handler echoes the three slices. -/
theorem all_valid_identity_passthrough_witness :
    processBarRequest (Value.obj [("email", Value.str "a@gmail.com")])
        (Value.obj [("foo", Value.str "bar")]) (Value.obj [("id", Value.str "2")]) =
      { status := 200,
        body := Value.obj
          [("payload", Value.obj [("email", Value.str "a@gmail.com")]),
           ("query", Value.obj [("foo", Value.str "bar")]),
           ("params", Value.obj [("id", Value.str "2")])] } := by
  have he : isEmail (Value.str "a@gmail.com") = some true := by decide
  exact (all_valid_identity_passthrough
    (Value.obj [("email", Value.str "a@gmail.com")])
    (Value.obj [("foo", Value.str "bar")])
    (Value.obj [("id", Value.str "2")])
    (Value.obj [("email", Value.str "a@gmail.com")])
    (Value.obj [("foo", Value.str "bar")])
    (Value.obj [("id", Value.str "2")])
    (by simp [validate, validateFields, lookupField, PayloadRuntype, he])
    (by simp [validate, validateFields, lookupField, QueryParamRuntype, primMatches])
    (by simp [validate, validateFields, lookupField, PathParamRuntype, firstMatch,
        primMatches, typeOfValue, Prim.toValue])).2

/-- Claim C1 counterexample: a body carrying the undeclared field extra
still reaches the handler in full, so the 200 response body differs from
the identity projection restricted to the declared fields, refuting the
claim that excess input fields are not surfaced to the handler. -/
theorem excess_field_surfaced_counterexample :
    processBarRequest
        (Value.obj [("email", Value.str "test@gmail.com"), ("extra", Value.str "surprise")])
        (Value.obj [("foo", Value.str "bar")])
        (Value.obj [("id", Value.str "1")]) =
      { status := 200,
        body := Value.obj
          [("payload", Value.obj [("email", Value.str "test@gmail.com"),
                                  ("extra", Value.str "surprise")]),
           ("query", Value.obj [("foo", Value.str "bar")]),
           ("params", Value.obj [("id", Value.str "1")])] } ∧
    validate PayloadRuntype
        (Value.obj [("email", Value.str "test@gmail.com"), ("extra", Value.str "surprise")]) =
      .valid (Value.obj [("email", Value.str "test@gmail.com")]) ∧
    Value.obj
        [("payload", Value.obj [("email", Value.str "test@gmail.com"),
                                ("extra", Value.str "surprise")]),
         ("query", Value.obj [("foo", Value.str "bar")]),
         ("params", Value.obj [("id", Value.str "1")])] ≠
      Value.obj
        [("payload", Value.obj [("email", Value.str "test@gmail.com")]),
         ("query", Value.obj [("foo", Value.str "bar")]),
         ("params", Value.obj [("id", Value.str "1")])] := by
  have he : isEmail (Value.str "test@gmail.com") = some true := by decide
  refine ⟨?_, ?_, by simp⟩
  · simp [processBarRequest, dispatch, dispatchAux, runStage, barStages,
      bodyTypeParserMiddleware, queryTypeParserMiddleware, pathParamsParserMiddleware,
      getSlice, barHandler, validate, validateFields, firstMatch, lookupField,
      primMatches, PayloadRuntype, QueryParamRuntype, PathParamRuntype, he]
  · simp [validate, validateFields, lookupField, PayloadRuntype, he]

/-- Claim C2 (amended): a stage never modifies the request context: on a
valid slice it signals next with the context exactly as received, the
checked value being discarded, and on an invalid slice it halts with the
failure details, again leaving the context as received. -/
theorem stage_leaves_context_unchanged :
    ∀ (s : Stage) (ctx : RequestContext),
      (runStage s ctx).2 = ctx ∧
      (∀ w, validate s.runtype (getSlice s.slice ctx) = .valid w →
        runStage s ctx = (.next, ctx)) ∧
      (∀ d, validate s.runtype (getSlice s.slice ctx) = .invalid d →
        runStage s ctx = (.halt d, ctx)) := by
  intro s ctx
  refine ⟨?_, ?_, ?_⟩
  · cases hv : validate s.runtype (getSlice s.slice ctx) <;> simp [runStage, hv]
  · intro w h
    simp [runStage, h]
  · intro d h
    simp [runStage, h]

/-- Claim C2 witness: the body stage on a valid request signals next with
the context it received. -/
theorem stage_leaves_context_unchanged_witness :
    runStage (bodyTypeParserMiddleware PayloadRuntype)
        { body := Value.obj [("email", Value.str "b@gmail.com")],
          query := Value.obj [("foo", Value.str "bar")],
          params := Value.obj [("id", Value.str "1")] } =
      (.next,
        { body := Value.obj [("email", Value.str "b@gmail.com")],
          query := Value.obj [("foo", Value.str "bar")],
          params := Value.obj [("id", Value.str "1")] }) := by
  have he : isEmail (Value.str "b@gmail.com") = some true := by decide
  exact (stage_leaves_context_unchanged (bodyTypeParserMiddleware PayloadRuntype) _).2.1
    (Value.obj [("email", Value.str "b@gmail.com")])
    (by simp [bodyTypeParserMiddleware, getSlice, validate, validateFields, lookupField,
        PayloadRuntype, he])

/-- Claim C2 counterexample: on a body with an excess field the middleware
signals next with the context unchanged, while the spec-worded stage
writes back the shape-restricted value, so the two disagree: the validated
value is not written into the context. -/
theorem stage_writeback_counterexample :
    runStage (bodyTypeParserMiddleware PayloadRuntype)
        { body := Value.obj [("email", Value.str "c@gmail.com"), ("extra", Value.bool true)],
          query := Value.obj [("foo", Value.str "bar")],
          params := Value.obj [("id", Value.str "1")] } =
      (.next,
        { body := Value.obj [("email", Value.str "c@gmail.com"), ("extra", Value.bool true)],
          query := Value.obj [("foo", Value.str "bar")],
          params := Value.obj [("id", Value.str "1")] }) ∧
    validate PayloadRuntype
        (Value.obj [("email", Value.str "c@gmail.com"), ("extra", Value.bool true)]) =
      .valid (Value.obj [("email", Value.str "c@gmail.com")]) ∧
    runStageSpec (bodyTypeParserMiddleware PayloadRuntype)
        { body := Value.obj [("email", Value.str "c@gmail.com"), ("extra", Value.bool true)],
          query := Value.obj [("foo", Value.str "bar")],
          params := Value.obj [("id", Value.str "1")] } =
      (.next,
        { body := Value.obj [("email", Value.str "c@gmail.com")],
          query := Value.obj [("foo", Value.str "bar")],
          params := Value.obj [("id", Value.str "1")] }) ∧
    runStage (bodyTypeParserMiddleware PayloadRuntype)
        { body := Value.obj [("email", Value.str "c@gmail.com"), ("extra", Value.bool true)],
          query := Value.obj [("foo", Value.str "bar")],
          params := Value.obj [("id", Value.str "1")] } ≠
      runStageSpec (bodyTypeParserMiddleware PayloadRuntype)
        { body := Value.obj [("email", Value.str "c@gmail.com"), ("extra", Value.bool true)],
          query := Value.obj [("foo", Value.str "bar")],
          params := Value.obj [("id", Value.str "1")] } := by
  have he : isEmail (Value.str "c@gmail.com") = some true := by decide
  have h1 : runStage (bodyTypeParserMiddleware PayloadRuntype)
      { body := Value.obj [("email", Value.str "c@gmail.com"), ("extra", Value.bool true)],
        query := Value.obj [("foo", Value.str "bar")],
        params := Value.obj [("id", Value.str "1")] } =
      (.next,
        { body := Value.obj [("email", Value.str "c@gmail.com"), ("extra", Value.bool true)],
          query := Value.obj [("foo", Value.str "bar")],
          params := Value.obj [("id", Value.str "1")] }) := by
    simp [runStage, bodyTypeParserMiddleware, getSlice, validate, validateFields,
      lookupField, PayloadRuntype, he]
  have h3 : runStageSpec (bodyTypeParserMiddleware PayloadRuntype)
      { body := Value.obj [("email", Value.str "c@gmail.com"), ("extra", Value.bool true)],
        query := Value.obj [("foo", Value.str "bar")],
        params := Value.obj [("id", Value.str "1")] } =
      (.next,
        { body := Value.obj [("email", Value.str "c@gmail.com")],
          query := Value.obj [("foo", Value.str "bar")],
          params := Value.obj [("id", Value.str "1")] }) := by
    simp [runStageSpec, bodyTypeParserMiddleware, getSlice, setSlice, validate,
      validateFields, lookupField, PayloadRuntype, he]
  refine ⟨h1, ?_, h3, ?_⟩
  · simp [validate, validateFields, lookupField, PayloadRuntype, he]
  · rw [h1, h3]
    simp

/-- Claim C3: whenever the pipeline rejects a request, the response is
status 400 with body exactly the error envelope carrying name
ValidationError, code CONTENT_INCORRECT and the details of the single
failing stage, and those details hold exactly one field-to-reason entry;
details of different stages are never merged, the envelope being built
from the one rejecting stage alone. -/
theorem rejected_envelope_single_detail :
    ∀ b q p d i,
      dispatch barStages { body := b, query := q, params := p } = .rejected d i →
      processBarRequest b q p = { status := 400, body := validationErrorBody d } ∧
      d.length = 1 := by
  intro b q p d i h
  refine ⟨?_, dispatchAux_rejected_length barStages 0 _ d i (by rw [← dispatch]; exact h)⟩
  rw [processBarRequest, h]

/-- Claim C3 witness: a body failing the Gmail guard yields the 400
envelope of spec scenario 4. -/
theorem rejected_envelope_single_detail_witness :
    processBarRequest (Value.obj [("email", Value.str "nope")])
        (Value.obj [("foo", Value.str "bar")]) (Value.obj [("id", Value.str "1")]) =
      { status := 400,
        body := validationErrorBody [("email", "Failed constraint check for unknown")] } := by
  have he : isEmail (Value.str "nope") = some false := by decide
  have hd : dispatch barStages
      { body := Value.obj [("email", Value.str "nope")],
        query := Value.obj [("foo", Value.str "bar")],
        params := Value.obj [("id", Value.str "1")] } =
      .rejected [("email", "Failed constraint check for unknown")] 0 := by
    simp [dispatch, dispatchAux, runStage, barStages, bodyTypeParserMiddleware, getSlice,
      validate, validateFields, lookupField, PayloadRuntype, he, attributeFailure]
  exact (rejected_envelope_single_detail _ _ _ _ _ hd).1

/-- Claim C4: the chain stops at the first halting stage, its rejection
being independent of every stage attached after it; on the /bar/:id route
a body failure surfaces at index 0 whatever the query and params slices
hold, a query failure surfaces at index 1 whenever the body passed, a
path-params failure surfaces at index 2 whenever body and query passed,
and the terminal handler produces the response only when the dispatch
returned AllPassed. -/
theorem pipeline_short_circuit_precedence :
    (∀ (s : Stage) (rest : List Stage) (ctx : RequestContext)
        (d : List (String × String)) (i : Nat),
        runStage s ctx = (.halt d, ctx) → dispatchAux i (s :: rest) ctx = .rejected d i) ∧
    (∀ b q p db, validate PayloadRuntype b = .invalid db →
        dispatch barStages { body := b, query := q, params := p } = .rejected db 0) ∧
    (∀ b q p vb dq, validate PayloadRuntype b = .valid vb →
        validate QueryParamRuntype q = .invalid dq →
        dispatch barStages { body := b, query := q, params := p } = .rejected dq 1) ∧
    (∀ b q p vb vq dp, validate PayloadRuntype b = .valid vb →
        validate QueryParamRuntype q = .valid vq →
        validate PathParamRuntype p = .invalid dp →
        dispatch barStages { body := b, query := q, params := p } = .rejected dp 2) ∧
    (∀ b q p,
        (∃ ctx, dispatch barStages { body := b, query := q, params := p } = .allPassed ctx ∧
          processBarRequest b q p = barHandler ctx) ∨
        (∃ d i, dispatch barStages { body := b, query := q, params := p } = .rejected d i ∧
          processBarRequest b q p = { status := 400, body := validationErrorBody d })) := by
  refine ⟨?_, ?_, ?_, ?_, ?_⟩
  · intro s rest ctx d i h
    rw [dispatchAux, h]
  · intro b q p db hb
    simp [dispatch, dispatchAux, runStage, barStages, bodyTypeParserMiddleware,
      getSlice, hb]
  · intro b q p vb dq hb hq
    simp [dispatch, dispatchAux, runStage, barStages, bodyTypeParserMiddleware,
      queryTypeParserMiddleware, getSlice, hb, hq]
  · intro b q p vb vq dp hb hq hp
    simp [dispatch, dispatchAux, runStage, barStages, bodyTypeParserMiddleware,
      queryTypeParserMiddleware, pathParamsParserMiddleware, getSlice, hb, hq, hp]
  · intro b q p
    cases hd : dispatch barStages { body := b, query := q, params := p } with
    | allPassed ctx =>
      exact Or.inl ⟨ctx, rfl, by rw [processBarRequest, hd]⟩
    | rejected d i =>
      exact Or.inr ⟨d, i, rfl, by rw [processBarRequest, hd]⟩

/-- Claim C4 witness: with the body and the query slices simultaneously
invalid, the body failure alone surfaces, at stage index 0. -/
theorem pipeline_short_circuit_precedence_witness :
    dispatch barStages
        { body := Value.obj [], query := Value.obj [],
          params := Value.obj [("id", Value.str "1")] } =
      .rejected [("email", "Expected unknown, but was missing")] 0 :=
  pipeline_short_circuit_precedence.2.1 _ _ _ _
    (by simp [validate, validateFields, lookupField, PayloadRuntype, descSummary])

/-- Claim C9: the request of spec scenario 1, body with the Gmail address,
query foo equal to bar and path id equal to 1, passes every stage and is
answered 200 with the payload, query and params echoed exactly. -/
theorem scenario_valid_request_response :
    processBarRequest
        (Value.obj [("email", Value.str "test@gmail.com")])
        (Value.obj [("foo", Value.str "bar")])
        (Value.obj [("id", Value.str "1")]) =
      { status := 200,
        body := Value.obj
          [("payload", Value.obj [("email", Value.str "test@gmail.com")]),
           ("query", Value.obj [("foo", Value.str "bar")]),
           ("params", Value.obj [("id", Value.str "1")])] } := by
  have he : isEmail (Value.str "test@gmail.com") = some true := by decide
  simp [processBarRequest, dispatch, dispatchAux, runStage, barStages,
    bodyTypeParserMiddleware, queryTypeParserMiddleware, pathParamsParserMiddleware,
    getSlice, barHandler, validate, validateFields, firstMatch, lookupField,
    primMatches, PayloadRuntype, QueryParamRuntype, PathParamRuntype, he]

/-- Claim C10: the body guard accepts exactly the values that are strings
ending in the Gmail domain, with no further structural requirement: in
particular the bare domain string with an empty local part satisfies the
body descriptor and the body stage lets such a request continue. -/
theorem isEmail_suffix_characterization :
    (∀ v, isEmail v = some true ↔
      ∃ s, v = Value.str s ∧ strEndsWith s "@gmail.com" = true) ∧
    validate PayloadRuntype (Value.obj [("email", Value.str "@gmail.com")]) =
      .valid (Value.obj [("email", Value.str "@gmail.com")]) ∧
    runStage (bodyTypeParserMiddleware PayloadRuntype)
        { body := Value.obj [("email", Value.str "@gmail.com")],
          query := Value.obj [("foo", Value.str "bar")],
          params := Value.obj [("id", Value.str "1")] } =
      (.next,
        { body := Value.obj [("email", Value.str "@gmail.com")],
          query := Value.obj [("foo", Value.str "bar")],
          params := Value.obj [("id", Value.str "1")] }) := by
  have he : isEmail (Value.str "@gmail.com") = some true := by decide
  refine ⟨?_, ?_, ?_⟩
  · intro v
    cases v <;> simp [isEmail]
  · simp [validate, validateFields, lookupField, PayloadRuntype, he]
  · simp [runStage, bodyTypeParserMiddleware, getSlice, validate, validateFields,
      lookupField, PayloadRuntype, he]

/-- Claim C10 witness: the bare Gmail domain string passes the guard. -/
theorem isEmail_suffix_characterization_witness :
    isEmail (Value.str "@gmail.com") = some true :=
  (isEmail_suffix_characterization.1 (Value.str "@gmail.com")).mpr
    ⟨"@gmail.com", rfl, by decide⟩
